import Mathlib

/-!
Verification development for the AzureMated repository.

Shallow embedding of the parts of the code the specification's claims are
about:

* `utils/module_loader.py` — `load_and_run` (dynamic module dispatch);
* `utils/csv_writer.py` — `write_csv_with_schema` (schema-driven tabular
  output);
* `modules/azure_topology.py` — the retry loops of
  `AzureTopologyManager.get_subscriptions` / `get_management_groups`, the
  per-subscription collection loop of `run`, and the module-private
  `_write_csv` helper together with its `CSV_SCHEMAS` table;
* `modules/powerbi.py` — the per-workspace nested-collection loop of `run`,
  the `POWERBI_CSV_SCHEMAS` table, and the record augmentation
  `{"workspaceId": gid, **u}`.

Modelling conventions:

* A Python `dict` with string keys is an association list `Dict` that keeps
  insertion order; item assignment `d[k] = v` updates the first occurrence
  of `k` in place or appends (`dset`), exactly as a Python dict keeps the
  original key position on update.
* Dictionary values are modelled as `String`: no verified claim inspects
  the structure of a value, only key sets, the injected command name (a
  string), and the `str()`-rendered cell contents of CSV rows.
* Raised exceptions are modelled with `Except`; the distinct Python
  exception classes that the claims name are constructors of an error type
  (`ImportError` / the spec's ModuleResolutionError, `AttributeError` / the
  spec's EntryPointMissingError, `AzureError` / the spec's
  ExternalServiceError).
* File-system side effects are not modelled: a CSV "file" is the pair
  (header row, data rows) that the writer serializes; `time.sleep(n)` is
  recorded in a trace list of the slept durations.
-/

/-- Python dict with string keys and string values, as an insertion-ordered
association list. -/
abbrev Dict := List (String × String)

/-- Lookup in an association list (Python `d.get(k)` / `k in d`). -/
def alookup {α : Type} : List (String × α) → String → Option α
  | [], _ => none
  | (k, v) :: rest, key => if k = key then some v else alookup rest key

/-- Python `d[k] = v`: update the first occurrence of `k` in place, else
append at the end (Python dicts keep the original position of an updated
key). -/
def dset : Dict → String → String → Dict
  | [], k, v => [(k, v)]
  | (k', v') :: rest, k, v =>
    if k' = k then (k', v) :: rest else (k', v') :: dset rest k v

/-- Python `d.keys()` in insertion order. -/
def dkeys (d : Dict) : List String := d.map Prod.fst

/-- Python `{**base, **extra}` merge semantics: entries of `extra` are
assigned one by one into `base`, overriding on key clash and appending new
keys in order. -/
def pyDictMerge (base : Dict) (extra : Dict) : Dict :=
  extra.foldl (fun acc kv => dset acc kv.1 kv.2) base

/-- Boolean test that the first char list occurs at the head of the
second. -/
def leadMatch : List Char → List Char → Bool
  | [], _ => true
  | _ :: _, [] => false
  | a :: as, b :: bs => a = b && leadMatch as bs

/-- Boolean substring occurrence test on char lists. -/
def containsChars (pat : List Char) : List Char → Bool
  | [] => leadMatch pat []
  | c :: rest => leadMatch pat (c :: rest) || containsChars pat rest

/-- Python `pat in s` on strings (substring containment). -/
def strIn (pat s : String) : Bool := containsChars pat.data s.data

/-- Lexicographic (code-point) comparison of char lists, the order Python
`sorted` uses on strings. -/
def charListLe : List Char → List Char → Bool
  | [], _ => true
  | _ :: _, [] => false
  | a :: as, b :: bs => if a < b then true else if b < a then false else charListLe as bs

/-- The string order used by Python `sorted` (code-point lexicographic). -/
def strLe (s t : String) : Prop := charListLe s.data t.data = true

instance : DecidableRel strLe := fun s t =>
  inferInstanceAs (Decidable (charListLe s.data t.data = true))

/-- Python `sorted` on a list of strings (a stable ascending sort). -/
def sortStrings (l : List String) : List String := l.insertionSort strLe

/-- Python `{key for item in data for key in item.keys()}`: the set of all
keys (first occurrence order, then deduplicated). -/
def unionKeys (data : List Dict) : List String := (data.flatMap dkeys).dedup

/-- Embedding of `write_csv_with_schema` (utils/csv_writer.py lines
19-77). The returned pair is (header row, data rows) of the produced file:
- empty `data` with a schema → the schema is the header, no rows;
- empty `data` without a schema → fallback header `['id','name','type']`;
- nonempty `data` with a schema → the schema is the header, rows are the
  records projected onto the schema fields with `''` for missing fields
  (the `filtered_data` loop, lines 61-67);
- nonempty `data` without a schema → the header is the sorted union of
  record keys (line 52) and `csv.DictWriter` fills missing fields with the
  empty string.
The directory creation and file I/O of lines 54-58 have no observable
effect on the produced rows and are not modelled. -/
def write_csv_with_schema (data : List Dict) (schema : Option (List String)) :
    List String × List (List String) :=
  let fieldnames :=
    if data.isEmpty then
      match schema with
      | some s => s
      | none => ["id", "name", "type"]
    else
      match schema with
      | some s => s
      | none => sortStrings (unionKeys data)
  let rows :=
    if data.isEmpty then []
    else
      match schema with
      | some _ => data.map (fun row => fieldnames.map (fun f => (alookup row f).getD ""))
      | none => data.map (fun row => fieldnames.map (fun f => (alookup row f).getD ""))
  (fieldnames, rows)

/-- Embedding of `write_csv` (utils/csv_writer.py lines 80-92). -/
def write_csv (data : List Dict) : List String × List (List String) :=
  write_csv_with_schema data none

/-! ## modules/azure_topology.py -/

/-- Schema table `CSV_SCHEMAS` of modules/azure_topology.py lines 36-43. -/
def CSV_SCHEMAS : List (String × List String) :=
  [("subscriptions", ["subscription_id", "display_name", "state", "tenant_id", "authorization_source"]),
   ("management_groups", ["id", "name", "display_name", "tenant_id", "type"]),
   ("resource_groups", ["subscription_id", "name", "location", "id", "type", "provisioning_state", "tags"]),
   ("resources", ["subscription_id", "resource_group", "name", "type", "location", "id", "kind", "sku", "tags"]),
   ("default", ["id", "name", "type"])]

/-- The schema-key search of `_write_csv` (azure_topology.py lines 258-263):
the first key of `CSV_SCHEMAS` (in table order) that is a substring of the
file name, defaulting to `'default'`. -/
def topoSchemaKey (file_name : String) : String :=
  match CSV_SCHEMAS.find? (fun kv => strIn kv.1 file_name) with
  | some kv => kv.1
  | none => "default"

/-- Embedding of the module-private `_write_csv` of modules/azure_topology.py
lines 250-280, returning the produced (header row, data rows):
- empty `data` → header taken from `CSV_SCHEMAS` via the file-name match
  (lines 253-265), no rows;
- nonempty `data` → header is the sorted union of the record keys
  (line 268), and `csv.DictWriter` (restval `None`, rendered as the empty
  string by the csv module) fills fields a record lacks. -/
def _write_csv (file_name : String) (data : List Dict) : List String × List (List String) :=
  if data.isEmpty then
    ((alookup CSV_SCHEMAS (topoSchemaKey file_name)).getD [], [])
  else
    let fieldnames := sortStrings (unionKeys data)
    (fieldnames, data.map (fun row => fieldnames.map (fun f => (alookup row f).getD "")))

/-- Errors raised by the collection layer. `externalServiceError` models the
`azure.core.exceptions.AzureError` the topology module raises when a retry
budget is exhausted — the specification's ExternalServiceError. -/
inductive CollectErr where
  | externalServiceError (detail : String)
deriving DecidableEq, Repr

/-- One attempt of an external list call: the records the iteration yielded
before the attempt ended, and `none` when the attempt completed (the `break`
path) or `some msg` when it raised. -/
abbrev AttemptOutcome := List Dict × Option String

/-- The retry loop of `AzureTopologyManager.get_subscriptions`
(azure_topology.py lines 104-122), iterating over the remaining attempt
indices of `range(3)`. `acc` is the `subscriptions` list the attempts append
into, `sleeps` the trace of `time.sleep` durations. On the last attempt
(`attempt == 2`) a failure raises `AzureError(f"Failed to fetch
subscriptions: {e}")`; otherwise the loop sleeps `2 ** attempt` and
retries. -/
def subsAttemptLoop (outcomes : Nat → AttemptOutcome) :
    List Nat → List Dict → List Nat → List Nat × Except CollectErr (List Dict)
  | [], acc, sleeps => (sleeps, .ok acc)
  | attempt :: rest, acc, sleeps =>
    let acc2 := acc ++ (outcomes attempt).1
    match (outcomes attempt).2 with
    | none => (sleeps, .ok acc2)
    | some e =>
      if attempt == 2 then
        (sleeps, .error (.externalServiceError ("Failed to fetch subscriptions: " ++ e)))
      else
        subsAttemptLoop outcomes rest acc2 (sleeps ++ [2 ^ attempt])

/-- Embedding of `AzureTopologyManager.get_subscriptions` (azure_topology.py
lines 90-129), parameterized by the behaviour of the external
`client.subscriptions.list()` iteration on each attempt. Returns the sleep
trace and the outcome. -/
def get_subscriptions (outcomes : Nat → AttemptOutcome) :
    List Nat × Except CollectErr (List Dict) :=
  subsAttemptLoop outcomes [0, 1, 2] [] []

/-- The retry loop of `AzureTopologyManager.get_management_groups`
(azure_topology.py lines 146-166): same `range(3)` / `2 ** attempt` shape,
but a failure on the last attempt logs and returns `[]` instead of
raising. -/
def mgAttemptLoop (outcomes : Nat → AttemptOutcome) :
    List Nat → List Dict → List Nat → List Nat × List Dict
  | [], acc, sleeps => (sleeps, acc)
  | attempt :: rest, acc, sleeps =>
    let acc2 := acc ++ (outcomes attempt).1
    match (outcomes attempt).2 with
    | none => (sleeps, acc2)
    | some _ =>
      if attempt == 2 then (sleeps, [])
      else mgAttemptLoop outcomes rest acc2 (sleeps ++ [2 ^ attempt])

/-- Embedding of `AzureTopologyManager.get_management_groups`
(azure_topology.py lines 131-175): never raises; after three failed
attempts it degrades to the empty list. -/
def get_management_groups (outcomes : Nat → AttemptOutcome) :
    List Nat × List Dict :=
  mgAttemptLoop outcomes [0, 1, 2] [] []

/-- The subscription record built by `get_subscriptions` for each listed
subscription (azure_topology.py lines 107-114). -/
def mkSubscriptionRecord (subscription_id display_name state tenant_id
    authorization_source managed_by_tenants : String) : Dict :=
  [("subscription_id", subscription_id),
   ("display_name", display_name),
   ("state", state),
   ("tenant_id", tenant_id),
   ("authorization_source", authorization_source),
   ("managed_by_tenants", managed_by_tenants)]

/-- The per-subscription collection loop of the topology `run`
(azure_topology.py lines 343-354): for each target subscription id, fetch
its (resource groups, resources); on success extend the two aggregate
lists, on any exception log and `continue` with the next subscription. -/
def topoCollectScopes (fetch : String → Except String (List Dict × List Dict)) :
    List String → List Dict × List Dict
  | [] => ([], [])
  | subId :: rest =>
    match fetch subId with
    | .ok (rgs, rs) =>
      let (rgs', rs') := topoCollectScopes fetch rest
      (rgs ++ rgs', rs ++ rs')
    | .error _ => topoCollectScopes fetch rest

/-- The four CSV files written by the topology `run` (azure_topology.py
lines 358-361), each via `_write_csv`. -/
def topology_write_outputs (subscriptions management_groups
    all_resource_groups all_resources : List Dict) :
    List (String × (List String × List (List String))) :=
  [("subscriptions.csv", _write_csv "subscriptions.csv" subscriptions),
   ("management_groups.csv", _write_csv "management_groups.csv" management_groups),
   ("resource_groups.csv", _write_csv "resource_groups.csv" all_resource_groups),
   ("resources.csv", _write_csv "resources.csv" all_resources)]

/-! ## modules/powerbi.py -/

/-- Schema table `POWERBI_CSV_SCHEMAS` of modules/powerbi.py lines 36-45. -/
def POWERBI_CSV_SCHEMAS : List (String × List String) :=
  [("capacities", ["id", "display_name", "admins", "sku", "state", "region"]),
   ("workspaces", ["id", "name", "type", "state", "is_read_only", "is_on_dedicated_capacity", "capacity_id"]),
   ("workspace_users", ["workspace_id", "workspace_name", "group_user_access_right", "email_address", "display_name", "identifier", "principal_type", "user_type"]),
   ("dashboards", ["id", "display_name", "workspace_id", "workspace_name", "embed_url", "is_read_only", "web_url"]),
   ("dataflows", ["object_id", "name", "description", "workspace_id", "workspace_name", "configured_by", "modified_by", "modified_date_time"]),
   ("datasets", ["id", "name", "workspace_id", "workspace_name", "add_rows_api_enabled", "configured_by", "created_date", "is_refreshable", "is_effective_identity_required", "is_effective_identity_roles_required", "is_on_prem_gateway_required"]),
   ("default", ["id", "name", "type"])]

/-- The record augmentation `{"workspaceId": gid, **u}` of powerbi.py lines
221-224: a fresh dict starting with the `workspaceId` entry, then the
fetched record's entries merged in (overriding on key clash). -/
def augmentWorkspace (gid : String) (u : Dict) : Dict :=
  pyDictMerge [("workspaceId", gid)] u

/-- The per-workspace nested-collection loop of the powerbi `run`
(powerbi.py lines 213-224), inside the single `try` of lines 208-229: for
each workspace id, fetch users, dashboards, dataflows and datasets in
order, augmenting each record with the workspace id; the first exception
aborts the whole loop (there is no per-workspace handler), so any error
propagates and all aggregates are discarded. -/
def powerbiNested (fetchUsers fetchDashboards fetchDataflows fetchDatasets :
    String → Except String (List Dict)) :
    List String → Except String (List Dict × List Dict × List Dict × List Dict)
  | [] => .ok ([], [], [], [])
  | gid :: rest =>
    match fetchUsers gid with
    | .error e => .error e
    | .ok us =>
      match fetchDashboards gid with
      | .error e => .error e
      | .ok ds =>
        match fetchDataflows gid with
        | .error e => .error e
        | .ok dfs =>
          match fetchDatasets gid with
          | .error e => .error e
          | .ok dss =>
            match powerbiNested fetchUsers fetchDashboards fetchDataflows fetchDatasets rest with
            | .error e => .error e
            | .ok (us', ds', dfs', dss') =>
              .ok (us.map (augmentWorkspace gid) ++ us',
                   ds.map (augmentWorkspace gid) ++ ds',
                   dfs.map (augmentWorkspace gid) ++ dfs',
                   dss.map (augmentWorkspace gid) ++ dss')

/-- The six CSV files written by the powerbi `run` (powerbi.py lines
232-237), each via `write_csv_with_schema` with the registered schema for
its dataset key. -/
def powerbi_write_outputs (capacities groups users dashboards dataflows datasets : List Dict) :
    List (String × (List String × List (List String))) :=
  [("capacities.csv", write_csv_with_schema capacities (alookup POWERBI_CSV_SCHEMAS "capacities")),
   ("workspaces.csv", write_csv_with_schema groups (alookup POWERBI_CSV_SCHEMAS "workspaces")),
   ("workspace_users.csv", write_csv_with_schema users (alookup POWERBI_CSV_SCHEMAS "workspace_users")),
   ("dashboards.csv", write_csv_with_schema dashboards (alookup POWERBI_CSV_SCHEMAS "dashboards")),
   ("dataflows.csv", write_csv_with_schema dataflows (alookup POWERBI_CSV_SCHEMAS "dataflows")),
   ("datasets.csv", write_csv_with_schema datasets (alookup POWERBI_CSV_SCHEMAS "datasets"))]

/-! ## utils/module_loader.py -/

/-- Exceptions observable at the module-loader boundary.
`importError` is Python's `ImportError` (the specification's
ModuleResolutionError); `attributeError` is Python's `AttributeError` (the
specification's EntryPointMissingError); `raised` is an arbitrary exception
escaping from an invoked entry point. -/
inductive PyErr where
  | importError (module_name : String)
  | attributeError (msg : String)
  | raised (msg : String)
deriving DecidableEq, Repr

/-- A loaded Python module as the loader sees it: its module-level
attributes that are callable entry points (`hasattr` / `getattr` operate on
this table). An entry point takes the keyword-argument dict and either
returns a result mapping or raises. -/
structure PyModule where
  attrs : List (String × (Dict → Except PyErr Dict))

/-- Python `hasattr(module, name)` restricted to entry points. -/
def PyModule.hasattr (m : PyModule) (name : String) : Bool :=
  (alookup m.attrs name).isSome

/-- The `func_name` selection of `load_and_run` (module_loader.py lines
76-82): the requested command if the module has it, otherwise the default
`"run"` (also when no command is requested). -/
def chooseFuncName (m : PyModule) (command : Option String) : String :=
  match command with
  | some c => if m.hasattr c then c else "run"
  | none => "run"

/-- The argument preparation of `load_and_run` (module_loader.py lines
94-100): when the function being invoked is `"run"` and a command was
requested, the command name is assigned under the reserved key `"command"`
into `args_with_command = args.copy()`; otherwise the args pass through.
Lean values are immutable, so the `.copy()` is invisible here; the
heap-level `prepare_args` below models the copy-vs-mutate distinction
explicitly. -/
def buildCallArgs (func_name : String) (command : Option String) (args : Dict) : Dict :=
  match command with
  | some c => if func_name = "run" then dset args "command" c else args
  | none => args

/-- Embedding of `load_and_run` (module_loader.py lines 41-109). `env` is
`importlib.import_module`: the mapping from module names to loadable
modules, `none` meaning the import raises `ImportError`. The two trailing
`except` blocks of lines 102-109 log and re-raise the caught exception
unchanged, so they are identities on the error value. -/
def load_and_run (env : String → Option PyModule) (module_name : String)
    (args : Option Dict) (command : Option String) : Except PyErr Dict :=
  let args := args.getD []
  match env module_name with
  | none => .error (.importError module_name)
  | some m =>
    let func_name := chooseFuncName m command
    match alookup m.attrs func_name with
    | none =>
      .error (.attributeError
        ("Module " ++ module_name ++ " does not have a " ++ func_name ++ " function"))
    | some f => f (buildCallArgs func_name command args)

/-- A heap of Python dict objects: `mem r` is the contents of the dict
object with identity `r`; identities below `next` are the allocated ones. -/
structure DStore where
  mem : Nat → Dict
  next : Nat

/-- Read a dict object. -/
def DStore.read (s : DStore) (r : Nat) : Dict := s.mem r

/-- Overwrite the contents of an existing dict object (Python item
assignment mutates in place). -/
def DStore.write (s : DStore) (r : Nat) (d : Dict) : DStore :=
  ⟨fun x => if x = r then d else s.mem x, s.next⟩

/-- Allocate a fresh dict object with the given contents (Python
`dict.copy()` / a dict literal). -/
def DStore.alloc (s : DStore) (d : Dict) : DStore × Nat :=
  (⟨fun x => if x = s.next then d else s.mem x, s.next + 1⟩, s.next)

/-- Heap-level embedding of module_loader.py lines 94-100, the only place
`load_and_run` touches an argument dict: when invoking `"run"` with a
requested command, `args_with_command = args.copy()` allocates a fresh
object and `args_with_command["command"] = command` writes into that fresh
object; on every other path the caller's object is passed through
untouched. Returns the heap and the identity of the dict handed to the
entry point. -/
def prepare_args (s : DStore) (argsRef : Nat) (func_name : String)
    (command : Option String) : DStore × Nat :=
  match command with
  | some c =>
    if func_name = "run" then
      let (s1, r1) := s.alloc (s.read argsRef)
      (s1.write r1 (dset (s1.read r1) "command" c), r1)
    else (s, argsRef)
  | none => (s, argsRef)

/-- Heap-level embedding of `load_and_run` (module_loader.py lines 41-109),
threading the dict heap. `argsRef = none` models `args=None`, in which case
line 69 binds the local name to a fresh empty dict. Entry points receive
their arguments by `**` unpacking, which builds a fresh keyword dict in the
callee, so an entry point cannot write through to the caller's object and
is modelled as a pure function of the dict contents. -/
def load_and_run_heap (env : String → Option PyModule) (module_name : String)
    (s : DStore) (argsRef : Option Nat) (command : Option String) :
    DStore × Except PyErr Dict :=
  let s0r0 : DStore × Nat :=
    match argsRef with
    | some r => (s, r)
    | none => s.alloc []
  let s0 := s0r0.1
  let r0 := s0r0.2
  match env module_name with
  | none => (s0, .error (.importError module_name))
  | some m =>
    let func_name := chooseFuncName m command
    match alookup m.attrs func_name with
    | none =>
      (s0, .error (.attributeError
        ("Module " ++ module_name ++ " does not have a " ++ func_name ++ " function")))
    | some f =>
      let s1r1 := prepare_args s0 r0 func_name command
      (s1r1.1, f (s1r1.1.read s1r1.2))

/-! ## The modules package as the loader sees it -/

/-- An entry point that returns the keyword arguments it received, used to
observe exactly what the loader passes. -/
def echoEntry : Dict → Except PyErr Dict := fun d => .ok d

/-- A module whose only module-level entry point is `run`
(the shape of modules/azure_topology.py, modules/powerbi.py and
modules/reports.py, which define exactly one module-level function
`run`). -/
def modRunOnly : PyModule := ⟨[("run", echoEntry)]⟩

/-- An importable environment containing only the module `"m"` of shape
`modRunOnly`. -/
def envRunOnly : String → Option PyModule :=
  fun n => if n = "m" then some modRunOnly else none

/-- Embedding of modules/fabric.py as the loader sees it: the file defines
only the `FabricManager` class (lines 13-59) and no module-level function
at all — in particular no default `run` entry point, although the loader's
own docstring (module_loader.py lines 6-16), the fabric CLI registration in
main.py (lines 124-135) and tests/test_fabric_module_loading.py (which
patches `modules.fabric._fabric_manager` and calls the `list` and `get`
commands) all require one. -/
def fabricModule : PyModule := ⟨[]⟩

/-- The import environment restricted to `modules.fabric`. -/
def fabricEnv : String → Option PyModule :=
  fun n => if n = "modules.fabric" then some fabricModule else none

/-- Module-level entry points defined by each file of the modules package
(module-level `def`s only; classes are not callable entry points for the
loader's `hasattr` contract): azure_topology.py defines `run` (line 282),
powerbi.py defines `run` (line 168), reports.py defines `run` (line 102),
template_module.py defines `run`, `list` and `scan_data` (lines 120, 161,
195), and fabric.py defines none. -/
def moduleEntryPoints : List (String × List String) :=
  [("modules.azure_topology", ["run"]),
   ("modules.powerbi", ["run"]),
   ("modules.reports", ["run"]),
   ("modules.template_module", ["run", "list", "scan_data"]),
   ("modules.fabric", [])]

/-! ## Order facts about the Python string sort -/

theorem charListLe_cons_iff {a b : Char} {as bs : List Char} :
    charListLe (a :: as) (b :: bs) = true ↔ a < b ∨ (a = b ∧ charListLe as bs = true) := by
  show (if a < b then true else if b < a then false else charListLe as bs) = true ↔ _
  split_ifs with h1 h2
  · simp [h1]
  · constructor
    · intro h
      exact h.elim
    · rintro (h | ⟨hab, _⟩)
      · exact absurd h (asymm h2)
      · exact absurd hab (ne_of_gt h2)
  · have hab : a = b := le_antisymm (not_lt.mp h2) (not_lt.mp h1)
    simp [hab]

theorem charListLe_total : ∀ as bs : List Char, charListLe as bs = true ∨ charListLe bs as = true
  | [], _ => Or.inl rfl
  | _ :: _, [] => Or.inr rfl
  | a :: as, b :: bs => by
    rcases lt_trichotomy a b with h | h | h
    · exact Or.inl (charListLe_cons_iff.mpr (Or.inl h))
    · subst h
      rcases charListLe_total as bs with ih | ih
      · exact Or.inl (charListLe_cons_iff.mpr (Or.inr ⟨rfl, ih⟩))
      · exact Or.inr (charListLe_cons_iff.mpr (Or.inr ⟨rfl, ih⟩))
    · exact Or.inr (charListLe_cons_iff.mpr (Or.inl h))

theorem charListLe_trans : ∀ as bs cs : List Char,
    charListLe as bs = true → charListLe bs cs = true → charListLe as cs = true
  | [], _, _, _, _ => rfl
  | _ :: _, [], _, h1, _ => by simp [charListLe] at h1
  | _ :: _, _ :: _, [], _, h2 => by simp [charListLe] at h2
  | a :: as, b :: bs, c :: cs, h1, h2 => by
    rw [charListLe_cons_iff] at h1 h2 ⊢
    rcases h1 with h1 | ⟨rfl, h1⟩
    · rcases h2 with h2 | ⟨rfl, h2⟩
      · exact Or.inl (lt_trans h1 h2)
      · exact Or.inl h1
    · rcases h2 with h2 | ⟨rfl, h2⟩
      · exact Or.inl h2
      · exact Or.inr ⟨rfl, charListLe_trans as bs cs h1 h2⟩

instance : IsTotal String strLe := ⟨fun s t => charListLe_total s.data t.data⟩

instance : IsTrans String strLe := ⟨fun a b c => charListLe_trans a.data b.data c.data⟩

theorem sorted_sortStrings (l : List String) : List.Sorted strLe (sortStrings l) :=
  List.sorted_insertionSort strLe l

theorem perm_sortStrings (l : List String) : (sortStrings l).Perm l :=
  List.perm_insertionSort strLe l

theorem mem_unionKeys {k : String} {data : List Dict} :
    k ∈ unionKeys data ↔ ∃ r ∈ data, k ∈ dkeys r := by
  simp [unionKeys, List.mem_dedup, List.mem_flatMap]

/-! ## Claim C4 -/

/-- C4: for every record list `data` (including `[]`) and every given
schema `S`, `write_csv_with_schema` succeeds with header row exactly `S`
(in `S`'s order, so no record key outside `S` ever appears in the header),
each row the projection of its record onto `S` with `""` for fields the
record lacks (so keys outside `S` contribute to no row), and for empty
`data` the produced file is exactly the header row. -/
theorem csv_writer_schema_projection (data : List Dict) (S : List String) :
    (write_csv_with_schema data (some S)).1 = S ∧
    (write_csv_with_schema data (some S)).2
      = data.map (fun r => S.map (fun f => (alookup r f).getD "")) ∧
    (data = [] → write_csv_with_schema data (some S) = (S, [])) := by
  cases data <;> simp [write_csv_with_schema]

/-- Witness for C4: the graceful-empty law at a concrete schema. -/
theorem csv_writer_schema_projection_witness :
    write_csv_with_schema [] (some ["id", "name"]) = (["id", "name"], []) :=
  (csv_writer_schema_projection [] ["id", "name"]).2.2 rfl

/-! ## Claim C5 -/

/-- C5 counterexample: with the schema omitted and the record list empty,
the claimed header (the sorted union of observed keys, which is empty) is
not what the writer produces — csv_writer.py lines 39-41 fall back to the
fixed default header `['id', 'name', 'type']`. -/
theorem csv_writer_empty_no_schema_counterexample :
    (write_csv_with_schema [] none).1 = ["id", "name", "type"] ∧
    sortStrings (unionKeys ([] : List Dict)) = [] ∧
    (write_csv_with_schema [] none).1 ≠ sortStrings (unionKeys ([] : List Dict)) := by
  refine ⟨rfl, rfl, ?_⟩
  decide

/-- C5 amended: when the schema is omitted, for every nonempty record list
the written header is exactly the union of all observed record keys,
deterministically sorted (sorted in the string order, duplicate-free, and
containing exactly the observed keys); for the empty record list the writer
instead uses the fixed fallback header `['id', 'name', 'type']`. -/
theorem csv_writer_no_schema_header (data : List Dict) (h : data ≠ []) :
    (write_csv_with_schema data none).1 = sortStrings (unionKeys data) ∧
    List.Sorted strLe (write_csv_with_schema data none).1 ∧
    (write_csv_with_schema data none).1.Nodup ∧
    (∀ k, k ∈ (write_csv_with_schema data none).1 ↔ ∃ r ∈ data, k ∈ dkeys r) := by
  have h1 : (write_csv_with_schema data none).1 = sortStrings (unionKeys data) := by
    cases data with
    | nil => exact absurd rfl h
    | cons a as => simp [write_csv_with_schema]
  refine ⟨h1, ?_, ?_, ?_⟩
  · rw [h1]
    exact sorted_sortStrings _
  · rw [h1]
    exact ((perm_sortStrings _).nodup_iff).mpr (List.nodup_dedup _)
  · intro k
    rw [h1, (perm_sortStrings _).mem_iff]
    exact mem_unionKeys

/-- Witness for C5 amended: a two-record list with out-of-order and
overlapping keys gets the sorted deduplicated union as header. -/
theorem csv_writer_no_schema_header_witness :
    (write_csv_with_schema [[("b", "1"), ("a", "2")], [("a", "3"), ("c", "4")]] none).1
      = ["a", "b", "c"] := by
  have h := csv_writer_no_schema_header [[("b", "1"), ("a", "2")], [("a", "3"), ("c", "4")]]
    (by decide)
  rw [h.1]
  decide

/-! ## Claim C2 -/

/-- C2: both resilient list calls consult at most the first 3 attempt
outcomes; a call that succeeds on attempt 1/2/3 returns the collected
records with sleep trace `[]` / `[1]` / `[1, 2]` (1 unit before the 2nd
attempt, 2 before the 3rd); after 3 consecutive failures the primary-data
call `get_subscriptions` raises ExternalServiceError (the `AzureError` of
azure_topology.py line 120) while the secondary-data call
`get_management_groups` returns the empty list without raising
(azure_topology.py line 164). -/
theorem retry_policy (o : Nat → AttemptOutcome) :
    ((o 0).2 = none →
      get_subscriptions o = ([], .ok (o 0).1) ∧
      get_management_groups o = ([], (o 0).1)) ∧
    (∀ e0, (o 0).2 = some e0 → (o 1).2 = none →
      get_subscriptions o = ([1], .ok ((o 0).1 ++ (o 1).1)) ∧
      get_management_groups o = ([1], (o 0).1 ++ (o 1).1)) ∧
    (∀ e0 e1, (o 0).2 = some e0 → (o 1).2 = some e1 → (o 2).2 = none →
      get_subscriptions o = ([1, 2], .ok ((o 0).1 ++ (o 1).1 ++ (o 2).1)) ∧
      get_management_groups o = ([1, 2], (o 0).1 ++ (o 1).1 ++ (o 2).1)) ∧
    (∀ e0 e1 e2, (o 0).2 = some e0 → (o 1).2 = some e1 → (o 2).2 = some e2 →
      get_subscriptions o
        = ([1, 2], .error (.externalServiceError ("Failed to fetch subscriptions: " ++ e2))) ∧
      get_management_groups o = ([1, 2], [])) ∧
    (∀ o2 : Nat → AttemptOutcome, o 0 = o2 0 → o 1 = o2 1 → o 2 = o2 2 →
      get_subscriptions o = get_subscriptions o2 ∧
      get_management_groups o = get_management_groups o2) := by
  refine ⟨?_, ?_, ?_, ?_, ?_⟩
  · intro h0
    constructor <;> simp [get_subscriptions, subsAttemptLoop, get_management_groups,
      mgAttemptLoop, h0]
  · intro e0 h0 h1
    constructor <;> simp [get_subscriptions, subsAttemptLoop, get_management_groups,
      mgAttemptLoop, h0, h1]
  · intro e0 e1 h0 h1 h2
    constructor <;> simp [get_subscriptions, subsAttemptLoop, get_management_groups,
      mgAttemptLoop, h0, h1, h2, List.append_assoc]
  · intro e0 e1 e2 h0 h1 h2
    constructor <;> simp [get_subscriptions, subsAttemptLoop, get_management_groups,
      mgAttemptLoop, h0, h1, h2]
  · intro o2 h0 h1 h2
    constructor <;>
      · simp only [get_subscriptions, subsAttemptLoop, get_management_groups, mgAttemptLoop]
        rw [h0, h1, h2]

/-- Outcome sequence used to witness C2: two transient failures, then a
successful attempt yielding one subscription record. -/
def retryWitnessOutcomes : Nat → AttemptOutcome :=
  fun k =>
    if k = 0 then ([], some "timeout")
    else if k = 1 then ([], some "throttled")
    else ([[("subscription_id", "s1")]], none)

/-- Witness for C2: failing twice then succeeding returns the collected
records after sleeps of 1 then 2 units, for both call categories. -/
theorem retry_policy_witness :
    get_subscriptions retryWitnessOutcomes = ([1, 2], .ok [[("subscription_id", "s1")]]) ∧
    get_management_groups retryWitnessOutcomes = ([1, 2], [[("subscription_id", "s1")]]) := by
  obtain ⟨hs, hm⟩ :=
    (retry_policy retryWitnessOutcomes).2.2.1 "timeout" "throttled" rfl rfl rfl
  constructor
  · rw [hs]
    rfl
  · rw [hm]
    rfl

/-! ## Claim C3 -/

/-- C3 amended: the two collector modules differ. In the topology module a
per-subscription nested-collection failure is isolated (azure_topology.py
lines 347-354): the aggregates are exactly the concatenation of the
successful subscriptions' records, in order, and the loop never aborts. In
the admin-metadata (powerbi) module the per-workspace loop sits inside a
single `try` (powerbi.py lines 208-229): when every nested fetch succeeds
the aggregates contain every workspace's augmented records, but one failing
fetch for any workspace aborts the whole run with an error, discarding all
aggregates. -/
theorem scope_isolation_amended :
    (∀ (fetch : String → Except String (List Dict × List Dict)) (ids : List String),
      topoCollectScopes fetch ids =
        ((ids.filterMap fun i => (fetch i).toOption).flatMap Prod.fst,
         (ids.filterMap fun i => (fetch i).toOption).flatMap Prod.snd)) ∧
    (∀ (uf df ff sf : String → List Dict) (gids : List String),
      powerbiNested (fun g => .ok (uf g)) (fun g => .ok (df g)) (fun g => .ok (ff g))
          (fun g => .ok (sf g)) gids
        = .ok (gids.flatMap (fun g => (uf g).map (augmentWorkspace g)),
               gids.flatMap (fun g => (df g).map (augmentWorkspace g)),
               gids.flatMap (fun g => (ff g).map (augmentWorkspace g)),
               gids.flatMap (fun g => (sf g).map (augmentWorkspace g)))) ∧
    (∀ (fetchU fetchD fetchF fetchS : String → Except String (List Dict))
        (gids : List String),
      (∃ g ∈ gids, ∃ e, fetchU g = .error e ∨ fetchD g = .error e ∨
        fetchF g = .error e ∨ fetchS g = .error e) →
      ∃ e, powerbiNested fetchU fetchD fetchF fetchS gids = .error e) := by
  refine ⟨?_, ?_, ?_⟩
  · intro fetch ids
    induction ids with
    | nil => rfl
    | cons i rest ih =>
      cases hf : fetch i with
      | ok p =>
        obtain ⟨rgs, rs⟩ := p
        simp [topoCollectScopes, hf, ih, Except.toOption]
      | error e =>
        simp [topoCollectScopes, hf, ih, Except.toOption]
  · intro uf df ff sf gids
    induction gids with
    | nil => rfl
    | cons g rest ih =>
      simp [powerbiNested, ih]
  · intro fetchU fetchD fetchF fetchS gids hex
    induction gids with
    | nil =>
      obtain ⟨g, hg, _⟩ := hex
      exact absurd hg (List.not_mem_nil g)
    | cons g0 rest ih =>
      cases hu : fetchU g0 with
      | error e => exact ⟨e, by simp [powerbiNested, hu]⟩
      | ok us =>
        cases hd : fetchD g0 with
        | error e => exact ⟨e, by simp [powerbiNested, hu, hd]⟩
        | ok ds =>
          cases hf : fetchF g0 with
          | error e => exact ⟨e, by simp [powerbiNested, hu, hd, hf]⟩
          | ok dfs =>
            cases hs : fetchS g0 with
            | error e => exact ⟨e, by simp [powerbiNested, hu, hd, hf, hs]⟩
            | ok dss =>
              have hrest : ∃ g ∈ rest, ∃ e, fetchU g = .error e ∨ fetchD g = .error e ∨
                  fetchF g = .error e ∨ fetchS g = .error e := by
                obtain ⟨g, hg, e, hcase⟩ := hex
                rcases List.mem_cons.mp hg with rfl | hgr
                · rcases hcase with h | h | h | h <;>
                    simp [hu, hd, hf, hs] at h
                · exact ⟨g, hgr, e, hcase⟩
              obtain ⟨e, he⟩ := ih hrest
              refine ⟨e, ?_⟩
              simp [powerbiNested, hu, hd, hf, hs, he]

/-- Per-workspace users fetch used in the C3 scenario: workspace `g0` is
inaccessible, every other workspace yields one user record. -/
def cexFetchUsers : String → Except String (List Dict) :=
  fun g => if g = "g0" then .error "403 Forbidden" else .ok [[("emailAddress", "user@contoso.com")]]

/-- Per-workspace fetch that always succeeds with no records. -/
def cexFetchEmpty : String → Except String (List Dict) :=
  fun _ => .ok []

/-- C3 counterexample: in the admin-metadata (powerbi) module, with two
workspaces where nested collection fails for `g0` and succeeds for `g1`,
the run aborts with the error instead of continuing and aggregating exactly
the successful workspace's records, contradicting the claim for the powerbi
module. -/
theorem scope_isolation_counterexample :
    powerbiNested cexFetchUsers cexFetchEmpty cexFetchEmpty cexFetchEmpty ["g0", "g1"]
      = .error "403 Forbidden" ∧
    powerbiNested cexFetchUsers cexFetchEmpty cexFetchEmpty cexFetchEmpty ["g0", "g1"]
      ≠ .ok ([augmentWorkspace "g1" [("emailAddress", "user@contoso.com")]], [], [], []) := by
  have h1 : powerbiNested cexFetchUsers cexFetchEmpty cexFetchEmpty cexFetchEmpty ["g0", "g1"]
      = .error "403 Forbidden" := rfl
  refine ⟨h1, ?_⟩
  rw [h1]
  intro h
  exact Except.noConfusion h

/-- Witness for C3 amended (third clause): the same two-workspace scenario
aborts with some error. -/
theorem scope_isolation_amended_witness :
    ∃ e, powerbiNested cexFetchUsers cexFetchEmpty cexFetchEmpty cexFetchEmpty ["g0", "g1"]
      = .error e :=
  scope_isolation_amended.2.2 cexFetchUsers cexFetchEmpty cexFetchEmpty cexFetchEmpty
    ["g0", "g1"] ⟨"g0", by decide, "403 Forbidden", Or.inl rfl⟩

/-! ## Claim C6 -/

/-- C6 counterexample: a nonempty subscriptions dataset written by the
topology module's `run` (azure_topology.py line 358, via `_write_csv`) gets
the sorted union of the record keys as its header — which both contains the
extra key `managed_by_tenants` (built into every subscription record by
`get_subscriptions`, line 113, but absent from the registered schema) and
is not in the registered schema's order. -/
theorem schema_header_counterexample :
    (_write_csv "subscriptions.csv"
        [mkSubscriptionRecord "sub-1" "Sub One" "Enabled" "tenant-1" "RoleBased" "[]"]).1
      = ["authorization_source", "display_name", "managed_by_tenants", "state",
         "subscription_id", "tenant_id"] ∧
    alookup CSV_SCHEMAS "subscriptions"
      = some ["subscription_id", "display_name", "state", "tenant_id", "authorization_source"] ∧
    (_write_csv "subscriptions.csv"
        [mkSubscriptionRecord "sub-1" "Sub One" "Enabled" "tenant-1" "RoleBased" "[]"]).1
      ≠ ["subscription_id", "display_name", "state", "tenant_id", "authorization_source"] := by
  refine ⟨by decide, rfl, by decide⟩

/-- C6 amended: dataset files written by the admin-metadata (powerbi) module
have header row equal to the registered schema in schema order with one row
per record (and `""` filled for missing fields, by `csv_writer_schema_projection`);
in the topology module this holds only for empty datasets — its `_write_csv`
uses the registered `CSV_SCHEMAS` entry as header only when the dataset is
empty, and otherwise derives the header as the sorted union of the record
keys. -/
theorem schema_header_amended (data : List Dict) :
    (∀ key S, alookup POWERBI_CSV_SCHEMAS key = some S →
      (write_csv_with_schema data (some S)).1 = S ∧
      (write_csv_with_schema data (some S)).2.length = data.length) ∧
    (_write_csv "subscriptions.csv" []).1
      = ["subscription_id", "display_name", "state", "tenant_id", "authorization_source"] ∧
    (data ≠ [] → (_write_csv "subscriptions.csv" data).1 = sortStrings (unionKeys data)) := by
  refine ⟨?_, by decide, ?_⟩
  · intro key S _
    obtain ⟨h1, h2, _⟩ := csv_writer_schema_projection data S
    refine ⟨h1, ?_⟩
    rw [h2]
    exact List.length_map data _
  · intro h
    cases data with
    | nil => exact absurd rfl h
    | cons a as => simp [_write_csv]

/-- Witness for C6 amended: a powerbi capacities dataset with one record
keeps the registered header and row count; an empty topology subscriptions
dataset keeps the registered header. -/
theorem schema_header_amended_witness :
    (write_csv_with_schema [[("id", "c1")]]
        (some ["id", "display_name", "admins", "sku", "state", "region"])).1
      = ["id", "display_name", "admins", "sku", "state", "region"] ∧
    (write_csv_with_schema [[("id", "c1")]]
        (some ["id", "display_name", "admins", "sku", "state", "region"])).2.length = 1 ∧
    (_write_csv "sub-1/subscriptions.csv" [[("b", "1")]]).1 = ["b"] := by
  obtain ⟨h1, h2⟩ := (schema_header_amended [[("id", "c1")]]).1 "capacities"
    ["id", "display_name", "admins", "sku", "state", "region"] rfl
  refine ⟨h1, h2, ?_⟩
  have h3 := (schema_header_amended [[("b", "1")]]).2.2 (by decide)
  decide

/-! ## Claim C9 -/

/-- C9, evaluated at the failing input: the aggregate record for a user of
workspace `w1` does carry the injected key `workspaceId` (powerbi.py line
221), but the registered `workspace_users` schema names the column
`workspace_id` (powerbi.py line 39), so the written row — produced exactly
as the powerbi `run` produces it (line 234, `write_csv_with_schema` with
that schema) — has an empty string in the `workspace_id` column, the
injected key is dropped as an extra field, and the workspace identifier
`w1` appears nowhere in the written row: the parent linkage is lost in
every written nested-dataset row. -/
theorem workspace_linkage_lost :
    alookup (augmentWorkspace "w1" [("emailAddress", "user@contoso.com")]) "workspaceId"
      = some "w1" ∧
    alookup POWERBI_CSV_SCHEMAS "workspace_users"
      = some ["workspace_id", "workspace_name", "group_user_access_right", "email_address",
              "display_name", "identifier", "principal_type", "user_type"] ∧
    (write_csv_with_schema [augmentWorkspace "w1" [("emailAddress", "user@contoso.com")]]
        (alookup POWERBI_CSV_SCHEMAS "workspace_users")).2
      = [["", "", "", "", "", "", "", ""]] ∧
    (∀ row ∈ (write_csv_with_schema [augmentWorkspace "w1" [("emailAddress", "user@contoso.com")]]
        (alookup POWERBI_CSV_SCHEMAS "workspace_users")).2, "w1" ∉ row) := by
  refine ⟨rfl, rfl, by decide, by decide⟩

/-! ## Claim C8 -/

/-- C8, evaluated at the failing input: modules/fabric.py exposes no
module-level entry point at all — `fabricModule.attrs = []` — so loading
`modules.fabric` through the loader fails with the AttributeError of
module_loader.py line 87 (the specification's EntryPointMissingError), both
with no command and with the command `list` that main.py registers for the
fabric CLI module; the module-level-entry-point table of the modules
package records that every other module defines `run` but fabric defines
none. -/
theorem fabric_missing_default_entry :
    fabricModule.attrs = [] ∧
    alookup moduleEntryPoints "modules.fabric" = some [] ∧
    load_and_run fabricEnv "modules.fabric" (some [("subscription_id", "sub-1")]) none
      = .error (.attributeError "Module modules.fabric does not have a run function") ∧
    load_and_run fabricEnv "modules.fabric" (some [("subscription_id", "sub-1")]) (some "list")
      = .error (.attributeError "Module modules.fabric does not have a run function") := by
  refine ⟨rfl, rfl, rfl, rfl⟩

/-! ## Claim C1 -/

/-- C1 counterexample: on a module whose only entry point is `run` (the
shape of the topology, powerbi and reports modules), requesting the command
`"run"` finds the entry point named after the command, yet the loader still
injects `"command" = "run"` into the arguments — module_loader.py line 94
tests `func_name == "run" and command`, which does not distinguish the
fallback from a directly requested `run` — contradicting the claim that a
found entry point is invoked with the caller's argument mapping and no
injected command key. -/
theorem loader_injection_counterexample :
    modRunOnly.hasattr "run" = true ∧
    load_and_run envRunOnly "m" (some []) (some "run") = .ok [("command", "run")] ∧
    echoEntry [] = .ok [] ∧
    load_and_run envRunOnly "m" (some []) (some "run") ≠ echoEntry [] := by
  refine ⟨rfl, rfl, rfl, ?_⟩
  intro h
  have h2 : ([("command", "run")] : Dict) = [] := by
    injection h
  exact List.noConfusion h2

/-- C1 amended: if the module defines an entry point named after the
requested command and that name is not the default name `"run"`, the loader
invokes it directly with the caller's argument mapping and injects nothing;
whenever the invoked function is the default `"run"` and a command was
requested — by fallback, or because the requested command is itself
`"run"` — the command name is injected under the reserved key `"command"`;
with no requested command, `"run"` is invoked with no command key
injected. -/
theorem loader_dispatch_amended (env : String → Option PyModule) (mn : String)
    (m : PyModule) (args : Dict) (c : String) (f : Dict → Except PyErr Dict)
    (henv : env mn = some m) :
    (alookup m.attrs c = some f → c ≠ "run" →
      load_and_run env mn (some args) (some c) = f args) ∧
    (c = "run" → alookup m.attrs "run" = some f →
      load_and_run env mn (some args) (some c) = f (dset args "command" c)) ∧
    (alookup m.attrs c = none → alookup m.attrs "run" = some f →
      load_and_run env mn (some args) (some c) = f (dset args "command" c)) ∧
    (alookup m.attrs "run" = some f →
      load_and_run env mn (some args) none = f args) := by
  refine ⟨?_, ?_, ?_, ?_⟩
  · intro hc hne
    simp [load_and_run, chooseFuncName, PyModule.hasattr, buildCallArgs, henv, hc, hne]
  · rintro rfl hrun
    simp [load_and_run, chooseFuncName, PyModule.hasattr, buildCallArgs, henv, hrun]
  · intro hc hrun
    simp [load_and_run, chooseFuncName, PyModule.hasattr, buildCallArgs, henv, hc, hrun]
  · intro hrun
    simp [load_and_run, chooseFuncName, PyModule.hasattr, buildCallArgs, henv, hrun]

/-- A module defining the entry points `run` and `list`
(the shape of modules/template_module.py, minus `scan_data`); `list`
reports which function ran, `run` echoes its arguments. -/
def modListRun : PyModule :=
  ⟨[("run", echoEntry), ("list", fun _ => .ok [("ran", "list")])]⟩

/-- Environment resolving only `"modules.template_module"` to
`modListRun`. -/
def envListRun : String → Option PyModule :=
  fun n => if n = "modules.template_module" then some modListRun else none

/-- Witness for C1 amended: a defined non-`run` command runs directly with
the caller's args and no injection; the defined command `"run"` itself gets
the command injected; an undefined command falls back to `run` with the
command injected; no command runs `run` uninjected. -/
theorem loader_dispatch_amended_witness :
    load_and_run envListRun "modules.template_module" (some [("a", "1")]) (some "list")
      = .ok [("ran", "list")] ∧
    load_and_run envListRun "modules.template_module" (some [("a", "1")]) (some "run")
      = .ok [("a", "1"), ("command", "run")] ∧
    load_and_run envListRun "modules.template_module" (some [("a", "1")]) (some "scan")
      = .ok [("a", "1"), ("command", "scan")] ∧
    load_and_run envListRun "modules.template_module" (some [("a", "1")]) none
      = .ok [("a", "1")] := by
  have h1 := (loader_dispatch_amended envListRun "modules.template_module" modListRun
    [("a", "1")] "list" (fun _ => .ok [("ran", "list")]) rfl).1 rfl (by decide)
  have h2 := (loader_dispatch_amended envListRun "modules.template_module" modListRun
    [("a", "1")] "run" echoEntry rfl).2.1 rfl rfl
  have h3 := (loader_dispatch_amended envListRun "modules.template_module" modListRun
    [("a", "1")] "scan" echoEntry rfl).2.2.1 rfl rfl
  have h4 := (loader_dispatch_amended envListRun "modules.template_module" modListRun
    [("a", "1")] "scan" echoEntry rfl).2.2.2 rfl
  exact ⟨h1.trans rfl, h2.trans rfl, h3.trans rfl, h4.trans rfl⟩

/-! ## Claim C7 -/

/-- C7: the loader propagates an unresolvable module as the ImportError of
module_loader.py lines 102-104 (the specification's ModuleResolutionError,
re-raised unchanged); when neither the requested command's entry point nor
the default `run` exists it raises the AttributeError of line 87 (the
specification's EntryPointMissingError), both with a requested command and
without one; and an exception raised inside the invoked entry point is
returned to the caller as exactly the same error value (the bare `raise` of
lines 105-109). -/
theorem loader_error_propagation (env : String → Option PyModule) (mn : String)
    (args : Option Dict) (command : Option String) (m : PyModule)
    (f : Dict → Except PyErr Dict) (e : PyErr) :
    (env mn = none → load_and_run env mn args command = .error (.importError mn)) ∧
    (∀ c, env mn = some m → alookup m.attrs c = none → alookup m.attrs "run" = none →
      load_and_run env mn args (some c)
        = .error (.attributeError ("Module " ++ mn ++ " does not have a " ++ "run" ++ " function"))) ∧
    (env mn = some m → alookup m.attrs "run" = none →
      load_and_run env mn args none
        = .error (.attributeError ("Module " ++ mn ++ " does not have a " ++ "run" ++ " function"))) ∧
    (env mn = some m →
      alookup m.attrs (chooseFuncName m command) = some f →
      f (buildCallArgs (chooseFuncName m command) command (args.getD [])) = .error e →
      load_and_run env mn args command = .error e) := by
  refine ⟨?_, ?_, ?_, ?_⟩
  · intro henv
    simp [load_and_run, henv]
  · intro c henv hc hrun
    simp [load_and_run, chooseFuncName, PyModule.hasattr, henv, hc, hrun]
  · intro henv hrun
    simp [load_and_run, chooseFuncName, PyModule.hasattr, henv, hrun]
  · intro henv hfn hcall
    simp [load_and_run, henv, hfn, hcall]

/-- An entry point that always raises. -/
def boomEntry : Dict → Except PyErr Dict :=
  fun _ => .error (.raised "boom")

/-- A module whose `run` raises. -/
def modBoom : PyModule := ⟨[("run", boomEntry)]⟩

/-- Environment resolving only `"b"` to `modBoom`. -/
def envBoom : String → Option PyModule :=
  fun n => if n = "b" then some modBoom else none

/-- Witness for C7: an unresolvable module surfaces ImportError; a module
with no entry point at all surfaces the AttributeError; and the `raised`
error escaping an entry point comes back unchanged. -/
theorem loader_error_propagation_witness :
    load_and_run (fun _ => none) "missing.module" none none
      = .error (.importError "missing.module") ∧
    load_and_run fabricEnv "modules.fabric" none (some "list")
      = .error (.attributeError ("Module " ++ "modules.fabric" ++ " does not have a "
          ++ "run" ++ " function")) ∧
    load_and_run envBoom "b" (some []) none = .error (.raised "boom") := by
  refine ⟨?_, ?_, ?_⟩
  · exact (loader_error_propagation (fun _ => none) "missing.module" none none ⟨[]⟩
      echoEntry (.raised "x")).1 rfl
  · exact (loader_error_propagation fabricEnv "modules.fabric" none (some "list")
      fabricModule echoEntry (.raised "x")).2.1 "list" rfl rfl rfl
  · exact (loader_error_propagation envBoom "b" (some []) none modBoom boomEntry
      (.raised "boom")).2.2.2 rfl rfl rfl

/-! ## Claim C10 -/

/-- C10: for every heap of dict objects, every allocated caller argument
dict, every module environment and every command, `load_and_run` leaves the
caller's dict object exactly as it was — the fallback injection of
module_loader.py lines 96-97 writes into the fresh object allocated by
`args.copy()`, never into the caller's — and the result it returns equals
the pure model applied to the caller's (unchanged) dict contents, on the
return path and on every raise path alike. -/
theorem loader_preserves_caller_args (env : String → Option PyModule) (mn : String)
    (s : DStore) (r : Nat) (command : Option String) (h : r < s.next) :
    ((load_and_run_heap env mn s (some r) command).1).read r = s.read r ∧
    (load_and_run_heap env mn s (some r) command).2
      = load_and_run env mn (some (s.read r)) command := by
  have hne : r ≠ s.next := Nat.ne_of_lt h
  cases henv : env mn with
  | none => simp [load_and_run_heap, load_and_run, henv]
  | some m =>
    cases hfn : alookup m.attrs (chooseFuncName m command) with
    | none => simp [load_and_run_heap, load_and_run, henv, hfn]
    | some f =>
      cases command with
      | none =>
        simp [load_and_run_heap, load_and_run, henv, hfn, prepare_args, buildCallArgs]
      | some c =>
        by_cases hrun : chooseFuncName m (some c) = "run"
        · rw [hrun] at hfn
          constructor
          · simp [load_and_run_heap, henv, hfn, prepare_args, hrun, DStore.alloc,
              DStore.write, DStore.read, hne]
          · simp [load_and_run_heap, load_and_run, henv, hfn, prepare_args, hrun,
              buildCallArgs, DStore.alloc, DStore.write, DStore.read]
        · constructor
          · simp [load_and_run_heap, henv, hfn, prepare_args, hrun]
          · simp [load_and_run_heap, load_and_run, henv, hfn, prepare_args, hrun,
              buildCallArgs]

/-- A two-object heap whose object 0 is the caller's argument dict. -/
def demoStore : DStore :=
  ⟨fun x => if x = 0 then [("a", "1")] else [], 1⟩

/-- Witness for C10: invoking through the fallback-injection path leaves
the caller's dict object untouched while the entry point observes the
injected copy. -/
theorem loader_preserves_caller_args_witness :
    ((load_and_run_heap envRunOnly "m" demoStore (some 0) (some "list")).1).read 0
      = [("a", "1")] ∧
    (load_and_run_heap envRunOnly "m" demoStore (some 0) (some "list")).2
      = .ok [("a", "1"), ("command", "list")] := by
  obtain ⟨h1, h2⟩ :=
    loader_preserves_caller_args envRunOnly "m" demoStore 0 (some "list") (by decide)
  exact ⟨h1.trans rfl, h2.trans rfl⟩
